import Mathlib

/-!
# Site interactions (`assets/js/theme.js`)

A shallow embedding of the components of `theme.js` that the specification
makes testable statements about: `ThemeManager`, `MobileNav`, `SkillsFilter`
and `ContactForm`, together with the page initializer.

Conventions of the embedding.

* A JavaScript value that is a string or `null`/`undefined` is an
  `Option String`; `jsTruthy` is JavaScript truthiness on such a value (the
  empty string is falsy), and `jsOr` is the `||` operator.
* A statement sequence that may raise an exception returns a `Completion`:
  `normal s` when it ran to its end in state `s`, `abrupt s` when an exception
  propagated out of it, `s` being the state reached at the throw.
* The DOM is static: the elements found by `querySelector` during `init` are
  the ones later handlers see, so the cached references (`this.themeToggle`,
  `this.htmlElement`, `this.toggle`, ...) are read from the state directly.
  All objects are private to the script's closure, so a method only runs from
  `init` or from a listener bound by `init`.
-/

namespace ThemeJs

/-! ## JavaScript values -/

/-- JavaScript truthiness of a string-or-null value. -/
def jsTruthy : Option String → Bool
  | none => false
  | some s => s != ""

/-- The operator `a || b` on string-or-null values. -/
def jsOr (a b : Option String) : Option String :=
  if jsTruthy a then a else b

/-- The string a DOM setter stores for a string-or-null argument. -/
def domString : Option String → String
  | none => "null"
  | some s => s

/-- How a statement sequence ends. -/
inductive Completion (σ : Type) where
  | normal (s : σ)
  | abrupt (s : σ)
  deriving DecidableEq, Repr

namespace Completion

/-- The state in which the sequence ended. -/
def state {σ : Type} : Completion σ → σ
  | normal s => s
  | abrupt s => s

/-- Sequencing: the second part runs only after a normal completion. -/
def andThen {σ : Type} (c : Completion σ) (f : σ → Completion σ) : Completion σ :=
  match c with
  | normal s => f s
  | abrupt s => abrupt s

/-- Whether the sequence ran to its end. -/
def isNormal {σ : Type} : Completion σ → Bool
  | normal _ => true
  | abrupt _ => false

end Completion

/-! ## ThemeManager -/

/-- The browser's local storage as far as the script uses it: the value under
the key `"theme"`, or a storage whose every access raises an exception. -/
inductive Storage where
  | unavailable
  | available (theme : Option String)
  deriving DecidableEq, Repr

namespace Storage

/-- Result of `localStorage.getItem('theme')`; `none` when the call throws. -/
def getItem : Storage → Option (Option String)
  | unavailable => none
  | available t => some t

/-- Result of `localStorage.setItem('theme', v)`; `none` when the call throws. -/
def setItem (v : String) : Storage → Option Storage
  | unavailable => none
  | available _ => some (available (some v))

end Storage

/-- What `ThemeManager` reads and writes. -/
structure ThemeWorld where
  /-- The `localStorage` object. -/
  storage : Storage
  /-- Value of `window.matchMedia('(prefers-color-scheme: dark)').matches`. -/
  osDark : Bool
  /-- The root element's `data-theme` attribute. -/
  dataTheme : Option String
  /-- The `.theme-toggle` element, if the page has one, with its `aria-label`. -/
  toggleLabel : Option (Option String)
  /-- The `meta[name="theme-color"]` element, if any, with its `content`. -/
  metaContent : Option (Option String)
  /-- The field `this.currentTheme` (`none` while still undefined). -/
  currentTheme : Option String
  /-- A click listener is registered on the toggle. -/
  clickBound : Bool
  /-- A `change` listener is registered on the media query. -/
  changeBound : Bool
  deriving DecidableEq, Repr

namespace ThemeManager

/-- Method `getStoredTheme()`; `none` when the storage access throws. -/
def getStoredTheme (w : ThemeWorld) : Option (Option String) :=
  w.storage.getItem

/-- Method `getPreferredTheme()`; `none` when a storage access throws. -/
def getPreferredTheme (w : ThemeWorld) : Option (Option String) :=
  let siteDefault := jsOr w.dataTheme (some "dark")
  match getStoredTheme w with
  | none => none
  | some stored =>
    if jsTruthy stored then getStoredTheme w
    else some (if w.osDark then some "dark" else siteDefault)

/-- The expression `this.getStoredTheme() || this.getPreferredTheme()` of
`init`; `none` when a storage access throws. -/
def resolveTheme (w : ThemeWorld) : Option (Option String) :=
  match getStoredTheme w with
  | none => none
  | some stored =>
    if jsTruthy stored then some stored else getPreferredTheme w

/-- Method `updateThemeToggle(theme)`. -/
def updateThemeToggle (theme : String) (w : ThemeWorld) : ThemeWorld :=
  let label := if theme = "dark" then "Switch to light mode" else "Switch to dark mode"
  match w.toggleLabel with
  | some _ => { w with toggleLabel := some (some label) }
  | none => w

/-- Method `updateMetaThemeColor(theme)`. -/
def updateMetaThemeColor (theme : String) (w : ThemeWorld) : ThemeWorld :=
  let color := if theme = "dark" then "#0d1117" else "#ffffff"
  match w.metaContent with
  | some _ => { w with metaContent := some (some color) }
  | none => w

/-- Method `setTheme(theme)`: the attribute is written first, then the storage;
an exception of `setItem` leaves the two label updates undone. -/
def setTheme (theme : String) (w : ThemeWorld) : Completion ThemeWorld :=
  let w1 := { w with dataTheme := some theme }
  match w1.storage.setItem theme with
  | none => .abrupt w1
  | some st =>
    .normal (updateMetaThemeColor theme (updateThemeToggle theme { w1 with storage := st }))

/-- Method `toggleTheme()`. -/
def toggleTheme (w : ThemeWorld) : Completion ThemeWorld :=
  let newTheme := if w.currentTheme = some "dark" then "light" else "dark"
  setTheme newTheme { w with currentTheme := some newTheme }

/-- Method `bindEvents()`. -/
def bindEvents (w : ThemeWorld) : ThemeWorld :=
  let w1 := if w.toggleLabel.isSome then { w with clickBound := true } else w
  { w1 with changeBound := true }

/-- Method `init()`. -/
def init (w : ThemeWorld) : Completion ThemeWorld :=
  match resolveTheme w with
  | none => .abrupt w
  | some theme =>
    (setTheme (domString theme) { w with currentTheme := theme }).andThen
      (fun w1 => .normal (bindEvents w1))

/-- A click on the theme toggle: runs the listener registered by `bindEvents`. -/
def onToggleClick (w : ThemeWorld) : Completion ThemeWorld :=
  if w.clickBound then toggleTheme w else .normal w

/-- The OS colour-scheme preference changes to `dark = m`: the media query now
reports `m` and the `change` listener, if registered, runs with
`e.matches = m`. -/
def onSystemChange (m : Bool) (w : ThemeWorld) : Completion ThemeWorld :=
  let w1 := { w with osDark := m }
  if w1.changeBound then
    match getStoredTheme w1 with
    | none => .abrupt w1
    | some stored =>
      if !jsTruthy stored then setTheme (if m then "dark" else "light") w1
      else .normal w1
  else .normal w1

end ThemeManager

/-- The states `ThemeManager` can be in once `init` has completed: the state
`init` leaves behind, and every state reached from it by clicks on the toggle
and changes of the OS preference. -/
inductive AfterInit : ThemeWorld → Prop where
  | init (w w1 : ThemeWorld) :
      ThemeManager.init w = .normal w1 → AfterInit w1
  | click (w w1 : ThemeWorld) :
      AfterInit w → ThemeManager.onToggleClick w = .normal w1 → AfterInit w1
  | systemChange (m : Bool) (w w1 : ThemeWorld) :
      AfterInit w → ThemeManager.onSystemChange m w = .normal w1 → AfterInit w1

/-! ## MobileNav -/

/-- What `MobileNav` reads and writes. -/
structure NavState where
  /-- The `.mobile-menu-toggle` element, if any, with its `aria-expanded`. -/
  toggleExpanded : Option (Option String)
  /-- The `.navbar-menu` element, if any, with its class list. -/
  menuClasses : Option (List String)
  /-- Value of `document.body.style.overflow`. -/
  bodyOverflow : String
  /-- The listeners of `bindEvents` are registered. -/
  bound : Bool
  deriving DecidableEq, Repr

/-- Effect of `classList.remove(name)`. -/
def classRemove (name : String) (classes : List String) : List String :=
  classes.filter (fun c => c != name)

/-- Effect of `classList.toggle(name)`. -/
def classToggle (name : String) (classes : List String) : List String :=
  if classes.contains name then classRemove name classes else classes ++ [name]

namespace MobileNav

/-- Method `toggleMenu()`; a missing element makes the property access throw. -/
def toggleMenu (s : NavState) : Completion NavState :=
  match s.toggleExpanded with
  | none => .abrupt s
  | some expanded =>
    let isExpanded := expanded == some "true"
    let s1 := { s with toggleExpanded := some (some (if isExpanded then "false" else "true")) }
    match s1.menuClasses with
    | none => .abrupt s1
    | some classes =>
      .normal { s1 with
        menuClasses := some (classToggle "active" classes)
        bodyOverflow := if isExpanded then "" else "hidden" }

/-- Method `closeMenu()`. -/
def closeMenu (s : NavState) : Completion NavState :=
  match s.toggleExpanded with
  | none => .abrupt s
  | some _ =>
    let s1 := { s with toggleExpanded := some (some "false") }
    match s1.menuClasses with
    | none => .abrupt s1
    | some classes =>
      .normal { s1 with menuClasses := some (classRemove "active" classes), bodyOverflow := "" }

/-- Methods `init()` and `bindEvents()`: listeners are registered only when
both elements exist. -/
def init (s : NavState) : NavState :=
  if s.toggleExpanded.isSome && s.menuClasses.isSome then { s with bound := true } else s

/-- The document-level click listener, for a click whose target lies inside
the toggle (`inToggle`) or inside the menu (`inMenu`). -/
def onDocumentClick (inToggle inMenu : Bool) (s : NavState) : Completion NavState :=
  if s.bound then
    if !inToggle && !inMenu then closeMenu s else .normal s
  else .normal s

/-- The click listener of the toggle element. -/
def onToggleClick (s : NavState) : Completion NavState :=
  if s.bound then toggleMenu s else .normal s

/-- The document-level `keydown` listener. -/
def onKeydown (key : String) (s : NavState) : Completion NavState :=
  if s.bound then
    if key = "Escape" then closeMenu s else .normal s
  else .normal s

end MobileNav

/-! ## SkillsFilter -/

/-- A `.skill-category` element: its `data-category` and inline style. -/
structure Category where
  dataCategory : Option String
  display : String
  opacity : String
  transform : String
  transition : String
  deriving DecidableEq, Repr

/-- A `.filter-btn` element. -/
structure FilterButton where
  dataFilter : Option String
  classes : List String
  deriving DecidableEq, Repr

/-- What `SkillsFilter` reads and writes, with the browser's timer queue. Time
is in milliseconds. -/
structure SkillsState where
  filterButtons : List FilterButton
  skillCategories : List Category
  /-- The current time. -/
  now : Nat
  /-- Pending `setTimeout` callbacks `(due time, category index)`, in
  registration order; each sets the category's `display` to `"none"`. -/
  hideTimers : List (Nat × Nat)
  /-- Pending `requestAnimationFrame` callbacks, by category index. -/
  frames : List Nat
  /-- The click listeners of `bindEvents` are registered. -/
  bound : Bool
  deriving DecidableEq, Repr

/-- A category counts as visible when its `display` is not `"none"`. -/
def Category.visible (c : Category) : Bool :=
  c.display != "none"

/-- The test `filter === 'all' || categoryName === filter`. -/
def filterMatches (filter : Option String) (c : Category) : Bool :=
  filter == some "all" || c.dataCategory == filter

/-- The synchronous part of the matching branch of `filterSkills`. -/
def showCategory (c : Category) : Category :=
  { c with display := "block", opacity := "0", transform := "translateY(20px)" }

/-- The synchronous part of the other branch of `filterSkills`. -/
def fadeCategory (c : Category) : Category :=
  { c with opacity := "0", transform := "translateY(-20px)" }

/-- Indices, counted from `i`, of the categories satisfying `p`. -/
def indicesFrom (p : Category → Bool) : Nat → List Category → List Nat
  | _, [] => []
  | i, c :: cs => if p c then i :: indicesFrom p (i + 1) cs else indicesFrom p (i + 1) cs

/-- Body of a hide timer: `category.style.display = 'none'`. -/
def hideCategory (c : Category) : Category :=
  { c with display := "none" }

/-- A hide timer fires for the category with index `i`. -/
def hideAt : Nat → List Category → List Category
  | _, [] => []
  | 0, c :: cs => hideCategory c :: cs
  | i + 1, c :: cs => c :: hideAt i cs

/-- Body of an animation-frame callback on the category with index `i`. -/
def animateAt : Nat → List Category → List Category
  | _, [] => []
  | 0, c :: cs =>
    { c with transition := "opacity 0.3s ease, transform 0.3s ease", opacity := "1",
             transform := "translateY(0)" } :: cs
  | i + 1, c :: cs => c :: animateAt i cs

namespace SkillsFilter

/-- Method `filterSkills(filter)`: every category is restyled at once, a frame
callback is queued for each matching one and a 300ms hide timer for each
other one. Nothing cancels a timer queued by an earlier call. -/
def filterSkills (filter : Option String) (s : SkillsState) : SkillsState :=
  { s with
    skillCategories := s.skillCategories.map
      (fun c => if filterMatches filter c then showCategory c else fadeCategory c)
    frames := s.frames ++ indicesFrom (filterMatches filter) 0 s.skillCategories
    hideTimers := s.hideTimers ++
      (indicesFrom (fun c => !filterMatches filter c) 0 s.skillCategories).map
        (fun i => (s.now + 300, i)) }

/-- Method `updateActiveButton(activeButton)`, the button given by its index. -/
def updateActiveButton (active : Nat) (s : SkillsState) : SkillsState :=
  let cleared := s.filterButtons.map (fun b => { b with classes := classRemove "active" b.classes })
  let activate : FilterButton → FilterButton := fun b =>
    { b with classes := if b.classes.contains "active" then b.classes else b.classes ++ ["active"] }
  { s with filterButtons := cleared.modify activate active }

/-- Method `init()`: listeners are registered when there is a filter button. -/
def init (s : SkillsState) : SkillsState :=
  if s.filterButtons.length > 0 then { s with bound := true } else s

/-- A click on the filter button with index `i`. -/
def onFilterClick (i : Nat) (s : SkillsState) : SkillsState :=
  if s.bound then
    match s.filterButtons[i]? with
    | some b => updateActiveButton i (filterSkills b.dataFilter s)
    | none => s
  else s

/-- No pending hide timer is aimed at a category that a selection of `filter`
shows. -/
def noStaleHide (filter : Option String) (s : SkillsState) : Bool :=
  s.hideTimers.all (fun t =>
    match s.skillCategories[t.2]? with
    | some c => !filterMatches filter c
    | none => true)

/-- The browser renders a frame: the queued frame callbacks run. -/
def animationFrame (s : SkillsState) : SkillsState :=
  { s with
    skillCategories := s.frames.foldl (fun cs i => animateAt i cs) s.skillCategories
    frames := [] }

/-- Time advances by `d` milliseconds with no other event: the timers that are
due by then fire, in registration order (all delays are equal, so this is also
the order of their due times). -/
def elapse (d : Nat) (s : SkillsState) : SkillsState :=
  { s with
    now := s.now + d
    skillCategories :=
      ((s.hideTimers.filter (fun t => t.1 ≤ s.now + d)).map (fun t => t.2)).foldl
        (fun cs i => hideAt i cs) s.skillCategories
    hideTimers := s.hideTimers.filter (fun t => !(decide (t.1 ≤ s.now + d))) }

end SkillsFilter

/-! ## ContactForm -/

/-- A form control: `defaultValue` is what `form.reset()` restores. -/
structure Field where
  name : String
  defaultValue : String
  value : String
  deriving DecidableEq, Repr

/-- The submit button of the form. -/
structure SubmitButton where
  textContent : String
  disabled : Bool
  deriving DecidableEq, Repr

/-- The two feedback elements. -/
inductive Feedback where
  | success
  | error
  deriving DecidableEq, Repr

/-- How the `fetch` promise settles. -/
inductive FetchResult where
  /-- The promise resolves with a response whose `ok` is the given flag. -/
  | resolved (ok : Bool)
  /-- The promise rejects (network error). -/
  | rejected
  deriving DecidableEq, Repr

/-- What `ContactForm` reads and writes. Time is in milliseconds. -/
structure FormState where
  /-- The `.contact-form` element, if any, with its controls. -/
  form : Option (List Field)
  /-- The form's `button[type="submit"]`, if any. -/
  submitButton : Option SubmitButton
  /-- The `.form-success` element, if any, with its `style.display`. -/
  successMessage : Option String
  /-- The `.form-error` element, if any, with its `style.display`. -/
  errorMessage : Option String
  /-- The current time. -/
  now : Nat
  /-- Pending 5000ms timers `(due time, element)`; each hides the element. -/
  hideTimers : List (Nat × Feedback)
  /-- The submit listener is registered. -/
  bound : Bool
  deriving DecidableEq, Repr

/-- Effect of `form.reset()` on one control. -/
def Field.reset (f : Field) : Field :=
  { f with value := f.defaultValue }

namespace ContactForm

/-- Method `init()`. -/
def init (s : FormState) : FormState :=
  if s.form.isSome then { s with bound := true } else s

/-- Method `showMessage(messageElement)`. -/
def showMessage (which : Feedback) (s : FormState) : FormState :=
  match which with
  | .success =>
    match s.successMessage with
    | some _ => { s with successMessage := some "block",
                         hideTimers := s.hideTimers ++ [(s.now + 5000, .success)] }
    | none => s
  | .error =>
    match s.errorMessage with
    | some _ => { s with errorMessage := some "block",
                         hideTimers := s.hideTimers ++ [(s.now + 5000, .error)] }
    | none => s

/-- Part of `handleSubmit` before the `await`: returns the saved
`originalText`; `none` when the form has no submit button (the property
access throws). -/
def submitStart (s : FormState) : Option (String × FormState) :=
  match s.form, s.submitButton with
  | some _, some b =>
    some (b.textContent,
      { s with submitButton := some { textContent := "Sending...", disabled := true } })
  | _, _ => none

/-- Part of `handleSubmit` after the `await`: the `try` body for the settled
request, the `catch` clause, and the `finally` clause. -/
def submitSettle (originalText : String) (r : FetchResult) (s : FormState) : FormState :=
  let s1 :=
    match r with
    | .resolved true =>
      let s2 := showMessage .success s
      { s2 with form := s2.form.map (fun (fs : List Field) => fs.map Field.reset) }
    | .resolved false => showMessage .error s
    | .rejected => showMessage .error s
  let restored : SubmitButton := { textContent := originalText, disabled := false }
  { s1 with submitButton := s1.submitButton.map (fun _ => restored) }

/-- Method `handleSubmit(e)` for a request that settles as `r`, with no other
handler running while the request is in flight. -/
def handleSubmit (r : FetchResult) (s : FormState) : Completion FormState :=
  match submitStart s with
  | none => .abrupt s
  | some (originalText, s1) => .normal (submitSettle originalText r s1)

/-- Body of a feedback hide timer. -/
def hideMessage (which : Feedback) (s : FormState) : FormState :=
  match which with
  | .success => { s with successMessage := s.successMessage.map (fun _ => "none") }
  | .error => { s with errorMessage := s.errorMessage.map (fun _ => "none") }

/-- Time advances by `d` milliseconds with no other event. -/
def elapse (d : Nat) (s : FormState) : FormState :=
  let fired := (s.hideTimers.filter (fun t => t.1 ≤ s.now + d)).foldl
    (fun st t => hideMessage t.2 st) s
  { fired with
    now := s.now + d
    hideTimers := s.hideTimers.filter (fun t => !(decide (t.1 ≤ s.now + d))) }

end ContactForm

/-! ## Page initializer -/

/-- The behaviour units set up by the initializer. -/
inductive Component where
  | themeManager
  | mobileNav
  | skillsFilter
  | smoothScroll
  | contactForm
  | animationObserver
  | keyboardNav
  | lazyImages
  deriving DecidableEq, Repr

/-- The whole page: the state of the four modelled components and the list of
components whose `init` has completed. `SmoothScroll`, `AnimationObserver`,
`KeyboardNav` and `LazyImages` only register listeners and observers; their
`init` is recorded as completed and not modelled further. -/
structure Page where
  theme : ThemeWorld
  nav : NavState
  skills : SkillsState
  form : FormState
  initialized : List Component
  deriving DecidableEq, Repr

/-- The components that `init` sets up after `ThemeManager`, in order. -/
def remainingComponents : List Component :=
  [.mobileNav, .skillsFilter, .smoothScroll, .contactForm, .animationObserver,
   .keyboardNav, .lazyImages]

/-- Function `init()` at the end of the script: the eight `init` calls in
sequence. Nothing catches an exception of the first call, so it ends the
function. -/
def pageInit (p : Page) : Completion Page :=
  match ThemeManager.init p.theme with
  | .abrupt t => .abrupt { p with theme := t }
  | .normal t =>
    .normal { p with
      theme := t
      nav := MobileNav.init p.nav
      skills := SkillsFilter.init p.skills
      form := ContactForm.init p.form
      initialized := p.initialized ++ .themeManager :: remainingComponents }

/-- The resolution order in the specification's words: the stored preference
if one is present; otherwise `"dark"` if the OS prefers dark; otherwise the
document's declared default, or `"dark"` when none is declared. -/
def referenceResolve (stored : Option String) (osDark : Bool)
    (declared : Option String) : String :=
  match stored with
  | some s => s
  | none =>
    if osDark then "dark"
    else match declared with
      | some a => a
      | none => "dark"

/-! ## Concrete pages used as scenarios -/

/-- The page of the first scenario: nothing stored, the OS prefers light, the
root element declares `data-theme="dark"`. -/
def lightOsDarkDefault : ThemeWorld :=
  { storage := .available none, osDark := false, dataTheme := some "dark",
    toggleLabel := some none, metaContent := some (some "#0d1117"),
    currentTheme := none, clickBound := false, changeBound := false }

/-- A page with nothing stored on a system that prefers dark. -/
def darkOsFreshVisit : ThemeWorld :=
  { storage := .available none, osDark := true, dataTheme := some "dark",
    toggleLabel := some none, metaContent := some (some "#0d1117"),
    currentTheme := none, clickBound := false, changeBound := false }

/-- A page whose visitor chose light earlier. -/
def storedLight : ThemeWorld :=
  { storage := .available (some "light"), osDark := true, dataTheme := some "dark",
    toggleLabel := some none, metaContent := some none,
    currentTheme := none, clickBound := false, changeBound := false }

/-- A browser that denies every storage access. -/
def storageDenied : ThemeWorld :=
  { storage := .unavailable, osDark := true, dataTheme := none,
    toggleLabel := some none, metaContent := some none,
    currentTheme := none, clickBound := false, changeBound := false }

/-- The first-visit page after `init` and a later change of the OS preference
to light. -/
def darkAfterSystemChange : ThemeWorld :=
  (ThemeManager.onSystemChange false (ThemeManager.init darkOsFreshVisit).state).state

/-- A navigation bar with its menu closed, before `init`. -/
def closedNav : NavState :=
  { toggleExpanded := some (some "false"), menuClasses := some ["navbar-menu"],
    bodyOverflow := "", bound := false }

/-- A skill category as the page markup declares it (no inline style yet). -/
def plainCategory (name : String) : Category :=
  { dataCategory := some name, display := "", opacity := "", transform := "", transition := "" }

/-- A skills section with a backend and a frontend category, before `init`. -/
def skillsAtLoad : SkillsState :=
  { filterButtons :=
      [{ dataFilter := some "all", classes := ["filter-btn", "active"] },
       { dataFilter := some "frontend", classes := ["filter-btn"] },
       { dataFilter := some "backend", classes := ["filter-btn"] }],
    skillCategories := [plainCategory "backend", plainCategory "frontend"],
    now := 0, hideTimers := [], frames := [], bound := false }

/-- The skills section 100ms after the visitor selected "frontend": the hide
timer of the backend category is still pending. -/
def frontendJustSelected : SkillsState :=
  SkillsFilter.elapse 100 (SkillsFilter.filterSkills (some "frontend") skillsAtLoad)

/-- The skills section 100ms after the visitor selected "backend": the hide
timer of the frontend category is still pending. -/
def backendJustSelected : SkillsState :=
  SkillsFilter.elapse 100 (SkillsFilter.filterSkills (some "backend") skillsAtLoad)

/-- A filled-in contact form with hidden feedback elements. -/
def filledForm : FormState :=
  { form := some [{ name := "name", defaultValue := "", value := "Ada" },
                  { name := "message", defaultValue := "", value := "Hello" }],
    submitButton := some { textContent := "Send Message", disabled := false },
    successMessage := some "none", errorMessage := some "none",
    now := 0, hideTimers := [], bound := true }

/-- The filled-in form two seconds after a submission that succeeded, the
visitor having typed a second message: the success element is still displayed
and its hide timer is pending. -/
def retryAfterSuccess : FormState :=
  { ContactForm.elapse 2000 (ContactForm.handleSubmit (.resolved true) filledForm).state with
    form := some [{ name := "name", defaultValue := "", value := "Ada" },
                  { name := "message", defaultValue := "", value := "One more thing" }] }

/-- A contact form whose subject control is pre-filled by the markup. -/
def prefilledForm : FormState :=
  { form := some [{ name := "subject", defaultValue := "Website enquiry", value := "Job offer" },
                  { name := "message", defaultValue := "", value := "Hello" }],
    submitButton := some { textContent := "Send Message", disabled := false },
    successMessage := some "none", errorMessage := some "none",
    now := 0, hideTimers := [], bound := true }

/-- A whole page, before `init`, in a browser that denies every storage
access. -/
def deniedPage : Page :=
  { theme := storageDenied, nav := closedNav, skills := skillsAtLoad,
    form := { filledForm with bound := false }, initialized := [] }

/-! ## ThemeManager: auxiliary facts -/

theorem setTheme_available (v : String) (w : ThemeWorld) (s : Option String)
    (h : w.storage = .available s) :
    ThemeManager.setTheme v w = .normal
      (ThemeManager.updateMetaThemeColor v (ThemeManager.updateThemeToggle v
        { w with dataTheme := some v, storage := .available (some v) })) := by
  simp [ThemeManager.setTheme, h, Storage.setItem]

/-- What `setTheme` leaves behind when the storage accepts the write. -/
theorem setTheme_spec (v : String) (w : ThemeWorld) (s : Option String)
    (h : w.storage = .available s) :
    ∃ w1, ThemeManager.setTheme v w = .normal w1 ∧ w1.dataTheme = some v ∧
      w1.storage = .available (some v) ∧ w1.currentTheme = w.currentTheme ∧
      w1.osDark = w.osDark ∧ w1.clickBound = w.clickBound ∧
      w1.changeBound = w.changeBound ∧
      w1.metaContent = w.metaContent.map
        (fun _ => some (if v = "dark" then "#0d1117" else "#ffffff")) ∧
      w1.toggleLabel = w.toggleLabel.map
        (fun _ => some (if v = "dark" then "Switch to light mode" else "Switch to dark mode")) := by
  refine ⟨_, setTheme_available v w s h, ?_⟩
  obtain ⟨storage, osDark, dataTheme, toggleLabel, metaContent, cur, cb, chb⟩ := w
  cases toggleLabel <;> cases metaContent <;>
    simp [ThemeManager.updateMetaThemeColor, ThemeManager.updateThemeToggle]

/-- The theme `init` settles on when the storage can be read. -/
theorem resolveTheme_available (w : ThemeWorld) (s : Option String)
    (h : w.storage = .available s) :
    ThemeManager.resolveTheme w =
      some (if jsTruthy s then s
            else if w.osDark then some "dark" else jsOr w.dataTheme (some "dark")) := by
  simp only [ThemeManager.resolveTheme, ThemeManager.getPreferredTheme,
    ThemeManager.getStoredTheme, h, Storage.getItem]
  by_cases hs : jsTruthy s = true <;> simp [hs]

/-- After a completed `init`, attribute, storage and `currentTheme` agree. -/
theorem init_spec (w : ThemeWorld) (s : Option String) (h : w.storage = .available s) :
    ∃ t w1, ThemeManager.resolveTheme w = some (some t) ∧ t ≠ "" ∧
      ThemeManager.init w = .normal w1 ∧
      w1.currentTheme = some t ∧ w1.dataTheme = some t ∧
      w1.storage = .available (some t) ∧ w1.changeBound = true ∧
      w1.metaContent = w.metaContent.map
        (fun _ => some (if t = "dark" then "#0d1117" else "#ffffff")) := by
  have hr := resolveTheme_available w s h
  have key : ∃ t, t ≠ "" ∧ ThemeManager.resolveTheme w = some (some t) := by
    rw [hr]
    by_cases hs : jsTruthy s = true
    · cases s with
      | none => simp [jsTruthy] at hs
      | some v => exact ⟨v, by simpa [jsTruthy] using hs, by simp [hs]⟩
    · by_cases hd : w.osDark = true
      · exact ⟨"dark", by decide, by simp [hs, hd]⟩
      · by_cases ha : jsTruthy w.dataTheme = true
        · cases hdt : w.dataTheme with
          | none => simp [hdt, jsTruthy] at ha
          | some v =>
            rw [hdt] at ha
            exact ⟨v, by simpa [jsTruthy] using ha, by simp [hs, hd, jsOr, ha]⟩
        · exact ⟨"dark", by decide, by simp [hs, hd, jsOr, ha]⟩
  obtain ⟨t, ht, hres⟩ := key
  obtain ⟨w1, hset, h1, h2, h3, _, _, _, h7, _⟩ :=
    setTheme_spec t { w with currentTheme := some t } s h
  refine ⟨t, ThemeManager.bindEvents w1, hres, ht, ?_, ?_, ?_, ?_, ?_, ?_⟩
  · simp [ThemeManager.init, hres, domString, hset, Completion.andThen]
  · simp only [ThemeManager.bindEvents]; split <;> simpa using h3
  · simp only [ThemeManager.bindEvents]; split <;> simpa using h1
  · simp only [ThemeManager.bindEvents]; split <;> simpa using h2
  · simp [ThemeManager.bindEvents]
  · simp only [ThemeManager.bindEvents]; split <;> simpa using h7

/-! ## ThemeManager: the claims -/

/-- C1, as stated, fails: with nothing stored, an OS preference for light and
`data-theme="dark"` on the root element, the theme resolved at `init` is not
`"light"`. -/
theorem c1_resolved_theme_is_not_light :
    ThemeManager.resolveTheme lightOsDarkDefault ≠ some (some "light") ∧
    (ThemeManager.init lightOsDarkDefault).state.currentTheme ≠ some "light" := by
  constructor <;> decide

/-- C1, amended: with nothing stored, an OS preference for light and
`data-theme="dark"` on the root element, the theme resolved at `init` is
`"dark"`, the document default; `init` applies and stores it. -/
theorem c1_document_default_wins (w : ThemeWorld)
    (hs : w.storage = .available none) (hd : w.osDark = false)
    (ha : w.dataTheme = some "dark") :
    ThemeManager.resolveTheme w = some (some "dark") ∧
    ∃ w1, ThemeManager.init w = .normal w1 ∧ w1.currentTheme = some "dark" ∧
      w1.dataTheme = some "dark" ∧ w1.storage = .available (some "dark") := by
  have hr : ThemeManager.resolveTheme w = some (some "dark") := by
    rw [resolveTheme_available w none hs]
    simp [jsTruthy, hd, ha, jsOr]
  obtain ⟨t, w1, hres, _, hinit, h1, h2, h3, _⟩ := init_spec w none hs
  have ht : t = "dark" := by
    rw [hr] at hres
    exact (Option.some.inj (Option.some.inj hres)).symm
  subst ht
  exact ⟨hr, w1, hinit, h1, h2, h3⟩

/-- Witness of the amended C1 on the scenario's page. -/
theorem c1_document_default_wins_witness :
    ThemeManager.resolveTheme lightOsDarkDefault = some (some "dark") ∧
    ∃ w1, ThemeManager.init lightOsDarkDefault = .normal w1 ∧
      w1.currentTheme = some "dark" ∧ w1.dataTheme = some "dark" ∧
      w1.storage = .available (some "dark") :=
  c1_document_default_wins lightOsDarkDefault rfl rfl rfl

/-- C2: for every environment whose stored value `s` and root attribute `a`,
when present, are not the empty string (so in particular for the theme names
`"light"` and `"dark"`), the theme resolved at `init` is the one given by the
reference resolution order, and `init` ends with it as `currentTheme`; with
nothing stored and an OS preference for dark it is `"dark"`. -/
theorem c2_resolution_order (w : ThemeWorld) (s : Option String)
    (hs : w.storage = .available s) (hne : s ≠ some "") (hattr : w.dataTheme ≠ some "") :
    ThemeManager.resolveTheme w = some (some (referenceResolve s w.osDark w.dataTheme)) ∧
    (∃ w1, ThemeManager.init w = .normal w1 ∧
      w1.currentTheme = some (referenceResolve s w.osDark w.dataTheme)) ∧
    (s = none → w.osDark = true → ThemeManager.resolveTheme w = some (some "dark")) := by
  have hr : ThemeManager.resolveTheme w =
      some (some (referenceResolve s w.osDark w.dataTheme)) := by
    rw [resolveTheme_available w s hs]
    cases s with
    | some v =>
      have hv : v ≠ "" := fun h => hne (by rw [h])
      simp [referenceResolve, jsTruthy, hv]
    | none =>
      by_cases hd : w.osDark = true
      · simp [referenceResolve, jsTruthy, hd]
      · cases ha : w.dataTheme with
        | none => simp [referenceResolve, jsTruthy, hd, jsOr]
        | some v =>
          have hv : v ≠ "" := fun h => hattr (by rw [ha, h])
          simp [referenceResolve, jsTruthy, hd, jsOr, hv]
  obtain ⟨t, w1, hres, _, hinit, h1, _⟩ := init_spec w s hs
  have ht : t = referenceResolve s w.osDark w.dataTheme := by
    rw [hr] at hres
    exact (Option.some.inj (Option.some.inj hres)).symm
  refine ⟨hr, ⟨w1, hinit, by rw [h1, ht]⟩, ?_⟩
  intro hnone hdark
  rw [hr, hnone, hdark]
  simp [referenceResolve]

/-- Witness of C2 on a page whose visitor chose light earlier. -/
theorem c2_resolution_order_witness :
    ThemeManager.resolveTheme storedLight =
      some (some (referenceResolve (some "light") storedLight.osDark storedLight.dataTheme)) ∧
    (∃ w1, ThemeManager.init storedLight = .normal w1 ∧
      w1.currentTheme =
        some (referenceResolve (some "light") storedLight.osDark storedLight.dataTheme)) ∧
    (some "light" = none → storedLight.osDark = true →
      ThemeManager.resolveTheme storedLight = some (some "dark")) :=
  c2_resolution_order storedLight (some "light") rfl (by decide) (by decide)

/-- C3: for every theme `v` (any string, so in particular `"light"` and
`"dark"`) and every prior state in which the storage accepts writes,
`setTheme(v)` completes, and afterwards the root `data-theme` attribute is `v`
and the value stored under `"theme"` is `v`. -/
theorem c3_setTheme_attribute_and_storage (v : String) (w : ThemeWorld) (s : Option String)
    (hs : w.storage = .available s) :
    ∃ w1, ThemeManager.setTheme v w = .normal w1 ∧ w1.dataTheme = some v ∧
      ThemeManager.getStoredTheme w1 = some (some v) ∧
      ThemeManager.getStoredTheme w1 = some w1.dataTheme := by
  obtain ⟨w1, hset, h1, h2, _⟩ := setTheme_spec v w s hs
  refine ⟨w1, hset, h1, ?_, ?_⟩
  · simp [ThemeManager.getStoredTheme, h2, Storage.getItem]
  · simp [ThemeManager.getStoredTheme, h2, Storage.getItem, h1]

/-- Witness of C3: `setTheme("light")` on a page with accessible storage. -/
theorem c3_setTheme_attribute_and_storage_witness :
    ∃ w1, ThemeManager.setTheme "light" storedLight = .normal w1 ∧
      w1.dataTheme = some "light" ∧
      ThemeManager.getStoredTheme w1 = some (some "light") ∧
      ThemeManager.getStoredTheme w1 = some w1.dataTheme :=
  c3_setTheme_attribute_and_storage "light" storedLight (some "light") rfl

/-- One `toggleTheme()` call from a state whose attribute, stored value and
`currentTheme` may be anything, as long as the storage accepts writes. -/
theorem toggleTheme_spec (w : ThemeWorld) (s : Option String)
    (hs : w.storage = .available s) :
    ∃ w1, ThemeManager.toggleTheme w = .normal w1 ∧
      w1.currentTheme = some (if w.currentTheme = some "dark" then "light" else "dark") ∧
      w1.dataTheme = w1.currentTheme ∧
      w1.storage = .available w1.currentTheme ∧
      w1.clickBound = w.clickBound ∧ w1.changeBound = w.changeBound ∧
      w1.metaContent = w.metaContent.map (fun _ =>
        some (if w.currentTheme = some "dark" then "#ffffff" else "#0d1117")) := by
  obtain ⟨w1, hset, h1, h2, h3, _, h5, h6, h7, _⟩ :=
    setTheme_spec (if w.currentTheme = some "dark" then "light" else "dark")
      { w with currentTheme := some (if w.currentTheme = some "dark" then "light" else "dark") }
      s hs
  refine ⟨w1, hset, h3, by rw [h1, h3], by rw [h2, h3], h5, h6, ?_⟩
  rw [h7]
  by_cases hc : w.currentTheme = some "dark" <;> simp [hc]

/-- Once `init` has completed, the attribute, the stored value and
`currentTheme` hold one and the same non-empty theme, and the `change`
listener is registered; clicks and OS preference changes keep it so. -/
theorem afterInit_invariant (w : ThemeWorld) (h : AfterInit w) :
    ∃ t, t ≠ "" ∧ w.currentTheme = some t ∧ w.dataTheme = some t ∧
      w.storage = .available (some t) ∧ w.changeBound = true := by
  induction h with
  | init w w1 hinit =>
    cases hst : w.storage with
    | unavailable =>
      simp [ThemeManager.init, ThemeManager.resolveTheme, ThemeManager.getStoredTheme, hst,
        Storage.getItem] at hinit
    | available s =>
      obtain ⟨t, w1', _, ht, hinit', hcur, hattr, hsto, hbound, _⟩ := init_spec w s hst
      rw [hinit] at hinit'
      cases hinit'
      exact ⟨t, ht, hcur, hattr, hsto, hbound⟩
  | click w w1 _ hstep ih =>
    obtain ⟨t, ht, hcur, hattr, hsto, hbound⟩ := ih
    by_cases hb : w.clickBound = true
    · obtain ⟨w2, htog, c2, a2, s2, _, b2, _⟩ := toggleTheme_spec w (some t) hsto
      simp only [ThemeManager.onToggleClick, hb, if_true, htog] at hstep
      cases hstep
      refine ⟨if w.currentTheme = some "dark" then "light" else "dark", ?_, c2,
        by rw [a2, c2], by rw [s2, c2], by rw [b2, hbound]⟩
      split <;> decide
    · simp only [ThemeManager.onToggleClick, hb] at hstep
      cases hstep
      exact ⟨t, ht, hcur, hattr, hsto, hbound⟩
  | systemChange m w w1 _ hstep ih =>
    obtain ⟨t, ht, hcur, hattr, hsto, hbound⟩ := ih
    simp [ThemeManager.onSystemChange, hbound, ThemeManager.getStoredTheme, hsto,
      Storage.getItem, jsTruthy, ht] at hstep
    subst hstep
    exact ⟨t, ht, hcur, hattr, rfl, rfl⟩

/-- Once `init` has completed, a theme is stored, so the guard
`!this.getStoredTheme()` of the `change` listener is false: the listener only
ever records the new OS preference and leaves every other part of the state
alone. -/
theorem onSystemChange_after_init (w : ThemeWorld) (m : Bool) (h : AfterInit w) :
    ThemeManager.onSystemChange m w = .normal { w with osDark := m } := by
  obtain ⟨t, ht, _, _, hsto, hbound⟩ := afterInit_invariant w h
  simp [ThemeManager.onSystemChange, hbound, ThemeManager.getStoredTheme, hsto,
    Storage.getItem, jsTruthy, ht]

/-- C4, evaluated at the failing input: a first visit (nothing stored) on a
system that prefers dark; `init` completes with `data-theme="dark"`; then the OS
preference changes to light (`matches = false`) with no toggle in between. The
attribute is still `"dark"` afterwards, not `"light"`: `init` itself stored the
resolved theme, so the listener takes the visitor to have chosen. -/
theorem c4_system_change_ignored_after_init :
    ∃ w1 w2, ThemeManager.init darkOsFreshVisit = .normal w1 ∧
      w1.dataTheme = some "dark" ∧
      ThemeManager.getStoredTheme w1 = some (some "dark") ∧
      ThemeManager.onSystemChange false w1 = .normal w2 ∧
      w2.dataTheme = some "dark" ∧ w2.dataTheme ≠ some "light" := by
  refine ⟨_, _, rfl, ?_, ?_, rfl, ?_, ?_⟩ <;> decide

/-- C5: from any state reachable after `ThemeManager.init` (the state it
leaves, or one reached from it by toggle clicks and OS preference changes)
whose theme is `"light"` or `"dark"`, two `toggleTheme()` calls complete, the
first changes the theme, and the second brings the root `data-theme` attribute,
the stored `"theme"` value and `currentTheme` back to the values they had
before the first call. -/
theorem c5_toggle_twice_restores (w1 : ThemeWorld) (hreach : AfterInit w1)
    (htheme : w1.currentTheme = some "light" ∨ w1.currentTheme = some "dark") :
    ∃ w2 w3, ThemeManager.toggleTheme w1 = .normal w2 ∧
      ThemeManager.toggleTheme w2 = .normal w3 ∧
      w2.currentTheme ≠ w1.currentTheme ∧
      w3.dataTheme = w1.dataTheme ∧
      ThemeManager.getStoredTheme w3 = ThemeManager.getStoredTheme w1 ∧
      w3.currentTheme = w1.currentTheme := by
  obtain ⟨t, _, hcur, hattr, hsto, _⟩ := afterInit_invariant w1 hreach
  obtain ⟨w2, htog2, c2, a2, s2, _⟩ := toggleTheme_spec w1 (some t) hsto
  obtain ⟨w3, htog3, c3, a3, s3, _⟩ := toggleTheme_spec w2 w2.currentTheme s2
  refine ⟨w2, w3, htog2, htog3, ?_, ?_, ?_, ?_⟩
  · rcases htheme with h | h <;> rw [c2, h] <;> decide
  · rw [a3, c3, c2]
    rcases htheme with h | h <;> rw [hattr, ← hcur, h] <;> decide
  · simp only [ThemeManager.getStoredTheme, s3, hsto, Storage.getItem, c3, c2]
    rcases htheme with h | h <;> rw [← hcur, h] <;> decide
  · rw [c3, c2]
    rcases htheme with h | h <;> rw [h] <;> decide

/-- Witness of C5: the first-visit page of a system that prefers dark, after
`init` and one change of the OS preference. -/
theorem c5_toggle_twice_restores_witness :
    ∃ w2 w3, ThemeManager.toggleTheme darkAfterSystemChange = .normal w2 ∧
      ThemeManager.toggleTheme w2 = .normal w3 ∧
      w2.currentTheme ≠ darkAfterSystemChange.currentTheme ∧
      w3.dataTheme = darkAfterSystemChange.dataTheme ∧
      ThemeManager.getStoredTheme w3 = ThemeManager.getStoredTheme darkAfterSystemChange ∧
      w3.currentTheme = darkAfterSystemChange.currentTheme :=
  c5_toggle_twice_restores darkAfterSystemChange
    (AfterInit.systemChange false (ThemeManager.init darkOsFreshVisit).state _
      (AfterInit.init darkOsFreshVisit _ rfl) rfl)
    (Or.inr rfl)

/-- C6: when the current theme is `"dark"`, the page has a theme-color meta
element and the storage accepts writes, one `toggleTheme()` call completes and
leaves `data-theme="light"`, the stored value `"light"` and the meta content
`"#ffffff"`; a click on the toggle, once its listener is bound, is exactly that
call. -/
theorem c6_toggle_from_dark (w : ThemeWorld) (s : Option String) (content : Option String)
    (hcur : w.currentTheme = some "dark") (hs : w.storage = .available s)
    (hmeta : w.metaContent = some content) :
    ∃ w1, ThemeManager.toggleTheme w = .normal w1 ∧
      w1.dataTheme = some "light" ∧
      ThemeManager.getStoredTheme w1 = some (some "light") ∧
      w1.metaContent = some (some "#ffffff") ∧
      (w.clickBound = true → ThemeManager.onToggleClick w = .normal w1) := by
  obtain ⟨w1, htog, c1, a1, s1, _, _, m1⟩ := toggleTheme_spec w s hs
  have hc : w1.currentTheme = some "light" := by rw [c1]; simp [hcur]
  refine ⟨w1, htog, by rw [a1, hc], ?_, ?_, ?_⟩
  · simp [ThemeManager.getStoredTheme, s1, hc, Storage.getItem]
  · rw [m1, hmeta]; simp [hcur]
  · intro hb
    simp [ThemeManager.onToggleClick, hb, htog]

/-- Witness of C6 on the first-visit page after `init`. -/
theorem c6_toggle_from_dark_witness :
    ∃ w1, ThemeManager.toggleTheme (ThemeManager.init darkOsFreshVisit).state = .normal w1 ∧
      w1.dataTheme = some "light" ∧
      ThemeManager.getStoredTheme w1 = some (some "light") ∧
      w1.metaContent = some (some "#ffffff") ∧
      ((ThemeManager.init darkOsFreshVisit).state.clickBound = true →
        ThemeManager.onToggleClick (ThemeManager.init darkOsFreshVisit).state = .normal w1) :=
  c6_toggle_from_dark (ThemeManager.init darkOsFreshVisit).state (some "dark")
    (some "#0d1117") rfl rfl rfl

/-- C7, as stated, fails: in a browser that denies every storage access,
`ThemeManager.init` ends with an exception; the root element still has no
`data-theme` attribute, no theme was resolved, and the page initializer has
set up none of the remaining components. -/
theorem c7_init_fails_without_storage :
    (ThemeManager.init deniedPage.theme).isNormal = false ∧
    (ThemeManager.init deniedPage.theme).state.dataTheme = none ∧
    (ThemeManager.init deniedPage.theme).state.currentTheme = none ∧
    (pageInit deniedPage).isNormal = false ∧
    (∀ c ∈ remainingComponents, c ∉ (pageInit deniedPage).state.initialized) := by
  decide

/-- C7, amended: when every storage access throws, `ThemeManager.init` ends
with that exception at its first storage read, leaving the state as it was (no
theme resolved, `data-theme` untouched, no listener bound), and the page
initializer ends with the same exception without setting up any other
component. -/
theorem c7_storage_failure_is_fatal (p : Page) (h : p.theme.storage = .unavailable) :
    ThemeManager.resolveTheme p.theme = none ∧
    ThemeManager.init p.theme = .abrupt p.theme ∧
    pageInit p = .abrupt p := by
  have hr : ThemeManager.resolveTheme p.theme = none := by
    simp [ThemeManager.resolveTheme, ThemeManager.getStoredTheme, h, Storage.getItem]
  have hi : ThemeManager.init p.theme = .abrupt p.theme := by
    simp [ThemeManager.init, hr]
  exact ⟨hr, hi, by simp [pageInit, hi]⟩

/-- Witness of the amended C7 on the page with storage denied. -/
theorem c7_storage_failure_is_fatal_witness :
    ThemeManager.resolveTheme deniedPage.theme = none ∧
    ThemeManager.init deniedPage.theme = .abrupt deniedPage.theme ∧
    pageInit deniedPage = .abrupt deniedPage :=
  c7_storage_failure_is_fatal deniedPage rfl

/-! ## MobileNav -/

theorem classRemove_not_mem (name : String) (classes : List String) :
    name ∉ classRemove name classes := by
  simp [classRemove]

theorem classToggle_mem_of_not_mem (name : String) (classes : List String)
    (h : name ∉ classes) : name ∈ classToggle name classes := by
  simp [classToggle, h]

/-- C9: with the toggle and the menu present and the menu closed, after `init`
a `toggleMenu()` call completes with `aria-expanded="true"`, the class `active`
on the menu and the body's overflow `"hidden"`; a following document click
whose target is inside neither element completes with `aria-expanded="false"`,
no class `active` and the body's overflow `""`. -/
theorem c9_open_then_outside_click (s : NavState) (expanded : Option String)
    (classes : List String)
    (htoggle : s.toggleExpanded = some expanded) (hmenu : s.menuClasses = some classes)
    (hclosed : expanded ≠ some "true") (hinactive : "active" ∉ classes) :
    ∃ s1 s2 classes1 classes2,
      MobileNav.toggleMenu (MobileNav.init s) = .normal s1 ∧
      MobileNav.onToggleClick (MobileNav.init s) = .normal s1 ∧
      s1.toggleExpanded = some (some "true") ∧
      s1.menuClasses = some classes1 ∧ "active" ∈ classes1 ∧
      s1.bodyOverflow = "hidden" ∧
      MobileNav.onDocumentClick false false s1 = .normal s2 ∧
      s2.toggleExpanded = some (some "false") ∧
      s2.menuClasses = some classes2 ∧ "active" ∉ classes2 ∧
      s2.bodyOverflow = "" := by
  have hinit : MobileNav.init s = { s with bound := true } := by
    simp [MobileNav.init, htoggle, hmenu]
  have hopen : MobileNav.toggleMenu (MobileNav.init s) = .normal
      { s with bound := true, toggleExpanded := some (some "true"),
               menuClasses := some (classToggle "active" classes),
               bodyOverflow := "hidden" } := by
    simp [hinit, MobileNav.toggleMenu, htoggle, hmenu, hclosed]
  refine ⟨_,
    { s with bound := true, toggleExpanded := some (some "false"),
             menuClasses := some (classRemove "active" (classToggle "active" classes)),
             bodyOverflow := "" },
    classToggle "active" classes,
    classRemove "active" (classToggle "active" classes), hopen, ?_, rfl, rfl,
    classToggle_mem_of_not_mem _ _ hinactive, rfl, ?_, rfl, rfl,
    classRemove_not_mem _ _, rfl⟩
  · rw [MobileNav.onToggleClick, ← hopen]
    simp [hinit]
  · simp [MobileNav.onDocumentClick, MobileNav.closeMenu]

/-- Witness of C9 on a closed navigation bar. -/
theorem c9_open_then_outside_click_witness :
    ∃ s1 s2 classes1 classes2,
      MobileNav.toggleMenu (MobileNav.init closedNav) = .normal s1 ∧
      MobileNav.onToggleClick (MobileNav.init closedNav) = .normal s1 ∧
      s1.toggleExpanded = some (some "true") ∧
      s1.menuClasses = some classes1 ∧ "active" ∈ classes1 ∧
      s1.bodyOverflow = "hidden" ∧
      MobileNav.onDocumentClick false false s1 = .normal s2 ∧
      s2.toggleExpanded = some (some "false") ∧
      s2.menuClasses = some classes2 ∧ "active" ∉ classes2 ∧
      s2.bodyOverflow = "" :=
  c9_open_then_outside_click closedNav (some "false") ["navbar-menu"] rfl rfl
    (by decide) (by decide)

/-! ## ContactForm -/

/-- C10, as stated, fails. Two seconds after a submission that succeeded the
success element is still displayed; a submission that now fails ends with the
error element and the success element both at `display: block`, so the success
element is shown. And on a form whose subject control is pre-filled by the
markup, a successful submission puts the pre-filled text back: the control is
reset, not emptied. -/
theorem c10_success_stays_shown_and_defaults_return :
    retryAfterSuccess.successMessage = some "block" ∧
    (ContactForm.handleSubmit (.resolved false) retryAfterSuccess).isNormal = true ∧
    (ContactForm.handleSubmit (.resolved false) retryAfterSuccess).state.errorMessage =
      some "block" ∧
    (ContactForm.handleSubmit (.resolved false) retryAfterSuccess).state.successMessage =
      some "block" ∧
    (ContactForm.handleSubmit .rejected retryAfterSuccess).state.successMessage =
      some "block" ∧
    (ContactForm.handleSubmit (.resolved true) prefilledForm).isNormal = true ∧
    (ContactForm.handleSubmit (.resolved true) prefilledForm).state.form =
      some [{ name := "subject", defaultValue := "Website enquiry", value := "Website enquiry" },
            { name := "message", defaultValue := "", value := "" }] := by
  decide

/-- C10, amended: for every contact form with a submit button and both
feedback elements, `handleSubmit` completes. If the response has `ok` true, the
success element has `display: block` and the form has been reset: the same
controls, each holding its default value. If the response has `ok` false or
the request fails, the error element has `display: block`, the success element
is left as it was and the controls are unchanged. In every case the submit
button ends enabled with the label it had when `handleSubmit` started. -/
theorem c10_handleSubmit_outcomes (s : FormState) (fields : List Field)
    (button : SubmitButton) (successDisplay errorDisplay : String)
    (hform : s.form = some fields) (hbutton : s.submitButton = some button)
    (hsuccess : s.successMessage = some successDisplay)
    (herror : s.errorMessage = some errorDisplay) :
    (∃ s1 fields1, ContactForm.handleSubmit (.resolved true) s = .normal s1 ∧
      s1.successMessage = some "block" ∧
      s1.errorMessage = s.errorMessage ∧
      s1.form = some fields1 ∧
      fields1.map (fun f => f.name) = fields.map (fun f => f.name) ∧
      fields1.map (fun f => f.defaultValue) = fields.map (fun f => f.defaultValue) ∧
      fields1.map (fun f => f.value) = fields.map (fun f => f.defaultValue) ∧
      s1.submitButton = some { textContent := button.textContent, disabled := false }) ∧
    (∀ r, r = FetchResult.resolved false ∨ r = FetchResult.rejected →
      ∃ s1, ContactForm.handleSubmit r s = .normal s1 ∧
        s1.errorMessage = some "block" ∧
        s1.successMessage = s.successMessage ∧
        s1.form = some fields ∧
        s1.submitButton = some { textContent := button.textContent, disabled := false }) := by
  have hrun : ∀ r, ContactForm.handleSubmit r s = .normal
      (ContactForm.submitSettle button.textContent r
        { s with submitButton := some { textContent := "Sending...", disabled := true } }) := by
    intro r
    simp only [ContactForm.handleSubmit, ContactForm.submitStart, hform, hbutton]
  constructor
  · refine ⟨_, fields.map Field.reset, hrun _, ?_, ?_, ?_, ?_, ?_, ?_, ?_⟩
    · simp [ContactForm.submitSettle, ContactForm.showMessage, hsuccess]
    · simp [ContactForm.submitSettle, ContactForm.showMessage, hsuccess]
    · simp [ContactForm.submitSettle, ContactForm.showMessage, hsuccess, hform]
    · simp [Field.reset, Function.comp]
    · simp [Field.reset, Function.comp]
    · simp [Field.reset, Function.comp]
    · simp [ContactForm.submitSettle, ContactForm.showMessage, hsuccess]
  · intro r hr
    refine ⟨_, hrun r, ?_, ?_, ?_, ?_⟩
    · rcases hr with rfl | rfl <;>
        simp [ContactForm.submitSettle, ContactForm.showMessage, herror]
    · rcases hr with rfl | rfl <;>
        simp [ContactForm.submitSettle, ContactForm.showMessage, herror]
    · rcases hr with rfl | rfl <;>
        simp [ContactForm.submitSettle, ContactForm.showMessage, herror, hform]
    · rcases hr with rfl | rfl <;>
        simp [ContactForm.submitSettle, ContactForm.showMessage, herror]

/-- Witness of the amended C10 on the form retried while the success element
of the earlier submission is still displayed. -/
theorem c10_handleSubmit_outcomes_witness :
    (∃ s1 fields1, ContactForm.handleSubmit (.resolved true) retryAfterSuccess = .normal s1 ∧
      s1.successMessage = some "block" ∧
      s1.errorMessage = retryAfterSuccess.errorMessage ∧
      s1.form = some fields1 ∧
      fields1.map (fun f => f.name) = ["name", "message"] ∧
      fields1.map (fun f => f.defaultValue) = ["", ""] ∧
      fields1.map (fun f => f.value) = ["", ""] ∧
      s1.submitButton = some { textContent := "Send Message", disabled := false }) ∧
    (∀ r, r = FetchResult.resolved false ∨ r = FetchResult.rejected →
      ∃ s1, ContactForm.handleSubmit r retryAfterSuccess = .normal s1 ∧
        s1.errorMessage = some "block" ∧
        s1.successMessage = retryAfterSuccess.successMessage ∧
        s1.form = some [{ name := "name", defaultValue := "", value := "Ada" },
          { name := "message", defaultValue := "", value := "One more thing" }] ∧
        s1.submitButton = some { textContent := "Send Message", disabled := false }) :=
  c10_handleSubmit_outcomes retryAfterSuccess
    [{ name := "name", defaultValue := "", value := "Ada" },
     { name := "message", defaultValue := "", value := "One more thing" }]
    { textContent := "Send Message", disabled := false } "block" "none" rfl rfl rfl rfl

/-! ## SkillsFilter -/

theorem hideAt_getElem? (i j : Nat) (cs : List Category) :
    (hideAt i cs)[j]? = if i = j then cs[j]?.map hideCategory else cs[j]? := by
  induction cs generalizing i j with
  | nil => cases i <;> simp [hideAt]
  | cons c cs ih =>
    cases i with
    | zero =>
      cases j with
      | zero => simp [hideAt]
      | succ j => simp [hideAt]
    | succ i =>
      cases j with
      | zero => simp [hideAt]
      | succ j => simp [hideAt, ih]

theorem hideCategory_idem (c : Category) : hideCategory (hideCategory c) = hideCategory c := rfl

theorem foldl_hideAt_getElem? (fired : List Nat) (j : Nat) (cs : List Category) :
    (fired.foldl (fun cs i => hideAt i cs) cs)[j]? =
      if j ∈ fired then cs[j]?.map hideCategory else cs[j]? := by
  induction fired generalizing cs with
  | nil => simp
  | cons i fired ih =>
    rw [List.foldl_cons, ih, hideAt_getElem?]
    by_cases hij : i = j
    · subst hij
      cases hc : cs[i]? <;> simp [hideCategory_idem]
    · have hji : ¬ j = i := fun h => hij h.symm
      simp [hij, hji]

theorem mem_indicesFrom (p : Category → Bool) (i j : Nat) (cs : List Category) :
    j ∈ indicesFrom p i cs ↔ i ≤ j ∧ ∃ c, cs[j - i]? = some c ∧ p c = true := by
  induction cs generalizing i with
  | nil => simp [indicesFrom]
  | cons c cs ih =>
    have step : j ∈ indicesFrom p (i + 1) cs ↔
        i < j ∧ ∃ c', (c :: cs)[j - i]? = some c' ∧ p c' = true := by
      rw [ih]
      constructor
      · rintro ⟨hle, c', hc', hp⟩
        refine ⟨hle, c', ?_, hp⟩
        have : j - i = (j - (i + 1)) + 1 := by omega
        rw [this, List.getElem?_cons_succ]
        exact hc'
      · rintro ⟨hlt, c', hc', hp⟩
        refine ⟨hlt, c', ?_, hp⟩
        have : j - i = (j - (i + 1)) + 1 := by omega
        rw [this, List.getElem?_cons_succ] at hc'
        exact hc'
    have here : i = j → ((c :: cs)[j - i]? = some c) := by
      intro h
      subst h
      simp
    unfold indicesFrom
    by_cases hp : p c = true
    · rw [if_pos hp, List.mem_cons, step]
      constructor
      · rintro (h | ⟨hlt, h⟩)
        · exact ⟨le_of_eq h.symm, c, here h.symm, hp⟩
        · exact ⟨le_of_lt hlt, h⟩
      · rintro ⟨hle, c', hc', hp'⟩
        rcases Nat.eq_or_lt_of_le hle with h | h
        · exact Or.inl h.symm
        · exact Or.inr ⟨h, c', hc', hp'⟩
    · rw [if_neg hp, step]
      constructor
      · rintro ⟨hlt, h⟩
        exact ⟨le_of_lt hlt, h⟩
      · rintro ⟨hle, c', hc', hp'⟩
        rcases Nat.eq_or_lt_of_le hle with h | h
        · rw [here h] at hc'
          cases hc'
          exact absurd hp' hp
        · exact ⟨h, c', hc', hp'⟩

theorem noStaleHide_spec (f : Option String) (s : SkillsState)
    (h : SkillsFilter.noStaleHide f s = true) (t : Nat × Nat) (ht : t ∈ s.hideTimers) (c : Category)
    (hc : s.skillCategories[t.2]? = some c) : filterMatches f c = false := by
  have := List.all_eq_true.mp h t ht
  simpa [hc] using this

/-- After `filterSkills(filter)` and at least 300ms without another event, a
category is visible exactly when it matches the filter, provided no hide timer
that was already pending is aimed at a matching category. -/
theorem visible_after_window (f : Option String) (s : SkillsState) (d : Nat)
    (hd : 300 ≤ d) (hstale : SkillsFilter.noStaleHide f s = true) :
    ∀ c ∈ (SkillsFilter.elapse d (SkillsFilter.filterSkills f s)).skillCategories,
      c.visible = filterMatches f c := by
  intro c hc
  obtain ⟨j, hj⟩ := List.mem_iff_getElem?.mp hc
  simp only [SkillsFilter.elapse, SkillsFilter.filterSkills] at hj
  rw [foldl_hideAt_getElem?, List.getElem?_map] at hj
  cases hc0 : s.skillCategories[j]? with
  | none => simp [hc0] at hj
  | some c0 =>
    rw [hc0] at hj
    by_cases hm : filterMatches f c0 = true
    · have hnot : j ∉ List.map (fun t => t.2)
          (List.filter (fun t => decide (t.1 ≤ s.now + d))
            (s.hideTimers ++ List.map (fun i => (s.now + 300, i))
              (indicesFrom (fun c => !filterMatches f c) 0 s.skillCategories))) := by
        intro hmem
        obtain ⟨t, ht, htj⟩ := List.mem_map.mp hmem
        have ht' := (List.mem_filter.mp ht).1
        rcases List.mem_append.mp ht' with hold | hnew
        · have := noStaleHide_spec f s hstale t hold c0 (by rw [htj]; exact hc0)
          rw [hm] at this
          cases this
        · obtain ⟨i, hi, rfl⟩ := List.mem_map.mp hnew
          simp only at htj
          subst htj
          obtain ⟨_, c', hc', hp⟩ := (mem_indicesFrom _ 0 i _).mp hi
          rw [Nat.sub_zero, hc0] at hc'
          cases hc'
          simp [hm] at hp
      rw [if_neg hnot] at hj
      simp only [Option.map_some', hm, if_true, Option.some.injEq] at hj
      subst hj
      simp [Category.visible, showCategory, filterMatches] at hm ⊢
      exact hm
    · have hm' : filterMatches f c0 = false := by simpa using hm
      have hin : j ∈ List.map (fun t => t.2)
          (List.filter (fun t => decide (t.1 ≤ s.now + d))
            (s.hideTimers ++ List.map (fun i => (s.now + 300, i))
              (indicesFrom (fun c => !filterMatches f c) 0 s.skillCategories))) := by
        refine List.mem_map.mpr ⟨(s.now + 300, j), List.mem_filter.mpr ⟨?_, ?_⟩, rfl⟩
        · refine List.mem_append.mpr (Or.inr (List.mem_map.mpr ⟨j, ?_, rfl⟩))
          exact (mem_indicesFrom _ 0 j _).mpr ⟨Nat.zero_le _, c0, by simpa using hc0, by simp [hm']⟩
        · simp only [decide_eq_true_eq]
          omega
      rw [if_pos hin] at hj
      simp only [Option.map_some', hm', Option.some.injEq] at hj
      subst hj
      simp [Category.visible, hideCategory, fadeCategory, filterMatches] at hm' ⊢
      exact hm'

theorem hideAt_dataCategory (i : Nat) (cs : List Category) :
    (hideAt i cs).map (fun c => c.dataCategory) = cs.map (fun c => c.dataCategory) := by
  induction cs generalizing i with
  | nil => cases i <;> simp [hideAt]
  | cons c cs ih =>
    cases i with
    | zero => simp [hideAt, hideCategory]
    | succ i => simp [hideAt, ih]

theorem foldl_hideAt_dataCategory (fired : List Nat) (cs : List Category) :
    (fired.foldl (fun cs i => hideAt i cs) cs).map (fun c => c.dataCategory) =
      cs.map (fun c => c.dataCategory) := by
  induction fired generalizing cs with
  | nil => rfl
  | cons i fired ih => rw [List.foldl_cons, ih, hideAt_dataCategory]

/-- Neither `filterSkills` nor a firing timer adds, removes, reorders or
renames a category. -/
theorem categories_kept (f : Option String) (s : SkillsState) (d : Nat) :
    (SkillsFilter.elapse d (SkillsFilter.filterSkills f s)).skillCategories.map
        (fun c => c.dataCategory) =
      s.skillCategories.map (fun c => c.dataCategory) := by
  simp only [SkillsFilter.elapse, SkillsFilter.filterSkills]
  rw [foldl_hideAt_dataCategory, List.map_map]
  apply List.map_congr_left
  intro c _
  simp only [Function.comp]
  split <;> rfl

/-- C8, as stated, fails: 100ms after "frontend" was selected the hide timer of
the backend category is still pending; `filterSkills("backend")` shows that
category, the stale timer hides it 200ms later, and once the 300ms window
of the new selection has elapsed no category is visible. The same timer hides
the backend category after `filterSkills("all")`. -/
theorem c8_stale_timer_hides_shown_category :
    frontendJustSelected.hideTimers = [(300, 0)] ∧
    (SkillsFilter.elapse 300
      (SkillsFilter.filterSkills (some "backend") frontendJustSelected)).skillCategories.map
        (fun c => (c.dataCategory, c.display)) =
      [(some "backend", "none"), (some "frontend", "none")] ∧
    ¬ (∀ c ∈ (SkillsFilter.elapse 300
        (SkillsFilter.filterSkills (some "backend") frontendJustSelected)).skillCategories,
          c.visible = true ↔ c.dataCategory = some "backend") ∧
    ¬ (∀ c ∈ (SkillsFilter.elapse 300
        (SkillsFilter.filterSkills (some "all") frontendJustSelected)).skillCategories,
          c.visible = true) := by
  decide

/-- C8, amended: for every list of skill categories and every state of the
filter in which no pending hide timer is aimed at a category that the new
selection shows: after `filterSkills("backend")` and at least 300ms, the
visible categories are exactly those whose `data-category` is `"backend"`;
after `filterSkills("all")` and at least 300ms, every category is visible. The
categories themselves are the same in number, order and `data-category`. -/
theorem c8_visible_after_window (s : SkillsState) (d : Nat) (hd : 300 ≤ d) :
    (SkillsFilter.noStaleHide (some "backend") s = true →
      ∀ c ∈ (SkillsFilter.elapse d
          (SkillsFilter.filterSkills (some "backend") s)).skillCategories,
        c.visible = true ↔ c.dataCategory = some "backend") ∧
    (SkillsFilter.noStaleHide (some "all") s = true →
      ∀ c ∈ (SkillsFilter.elapse d
          (SkillsFilter.filterSkills (some "all") s)).skillCategories,
        c.visible = true) ∧
    (∀ f, (SkillsFilter.elapse d (SkillsFilter.filterSkills f s)).skillCategories.map
        (fun c => c.dataCategory) = s.skillCategories.map (fun c => c.dataCategory)) := by
  refine ⟨?_, ?_, fun f => categories_kept f s d⟩
  · intro h c hc
    rw [visible_after_window (some "backend") s d hd h c hc]
    simp [filterMatches]
  · intro h c hc
    rw [visible_after_window (some "all") s d hd h c hc]
    simp [filterMatches]

/-- Witness of the amended C8: "backend" selected again while the hide timer
of the frontend category is pending, and "all" selected on the fresh page. -/
theorem c8_visible_after_window_witness :
    (∀ c ∈ (SkillsFilter.elapse 300
        (SkillsFilter.filterSkills (some "backend") backendJustSelected)).skillCategories,
      c.visible = true ↔ c.dataCategory = some "backend") ∧
    (∀ c ∈ (SkillsFilter.elapse 300
        (SkillsFilter.filterSkills (some "all") skillsAtLoad)).skillCategories,
      c.visible = true) :=
  ⟨(c8_visible_after_window backendJustSelected 300 (by decide)).1 (by decide),
   (c8_visible_after_window skillsAtLoad 300 (by decide)).2.1 (by decide)⟩

end ThemeJs
